import Mathlib

/-!
Shallow embedding of the Limitless MCP client (`src/limitless/client.ts` and the
zod schemas of `src/limitless/types.ts`), together with theorems settling the
specification claims about it.

Strings of the original JavaScript are modelled by Lean `String`; the JavaScript
string operations used by the code (`toLowerCase`, `includes`, `trim`, and the
truthiness-based `||` fallback) are modelled character-wise over `String.data`,
with `Char.toLower`, which performs the ASCII case mapping relevant to the
queries the code handles.
-/

namespace Limitless

/-- JS `s.toLowerCase()`, modelled as the character-wise ASCII lower-casing of `s`. -/
def jsToLower (s : String) : String :=
  String.mk (s.data.map Char.toLower)

/-- JS `s.includes(pat)`: `pat` occurs in `s` as a contiguous substring. -/
def jsIncludes (s pat : String) : Bool :=
  decide (pat.data <:+: s.data)

/-- JS `s.trim()`: leading and trailing whitespace removed. -/
def jsTrim (s : String) : String :=
  String.mk (((s.data.dropWhile Char.isWhitespace).reverse.dropWhile Char.isWhitespace).reverse)

/-- JS `a || b` where `a` is an optional string: `undefined` and the empty
string (both falsy) fall through to `b`. -/
def jsOrString (a : Option String) (b : String) : String :=
  match a with
  | some s => if s = "" then b else s
  | none => b

/-- JS `a || b` where both operands are optional strings
(`config.apiKey || process.env.LIMITLESS_API_KEY` in the constructor). -/
def jsOrOptString (a b : Option String) : Option String :=
  match a with
  | some s => if s = "" then b else some s
  | none => b

/-- Content item within a lifelog entry (`LifelogContentItemSchema`). -/
inductive ContentKind
  | heading1
  | heading2
  | blockquote
  | text
deriving DecidableEq

structure LifelogContentItem where
  content : String
  kind : ContentKind
  startTime : Option String := none
  endTime : Option String := none
  startOffsetMs : Option Int := none
  endOffsetMs : Option Int := none
  speakerName : Option String := none
deriving DecidableEq

/-- Lifelog entry (`LifelogEntrySchema`): `markdown` and `updatedAt` are optional,
`isStarred` defaults to `false`. -/
structure LifelogEntry where
  id : String
  title : String
  startTime : String
  endTime : String
  contents : List LifelogContentItem
  markdown : Option String := none
  isStarred : Bool := false
  updatedAt : Option String := none
deriving DecidableEq

/-- The `meta.lifelogs` object of a list response: the total-available count. -/
structure LifelogsCountMeta where
  count : Int
deriving DecidableEq

structure ListLifelogsMeta where
  lifelogs : LifelogsCountMeta
deriving DecidableEq

/-- The `data` object of a list response. -/
structure ListLifelogsData where
  lifelogs : List LifelogEntry
deriving DecidableEq

/-- Response of `GET /v1/lifelogs` (`ListLifelogsResponseSchema`): `meta` is optional. -/
structure ListLifelogsResponse where
  data : ListLifelogsData
  meta : Option ListLifelogsMeta := none
deriving DecidableEq

inductive SortDirection
  | asc
  | desc
deriving DecidableEq

/-- Parameters of `getLifelogs` (`ListLifelogsParamsSchema`); an absent field of the
TS object literal is `none`. -/
structure ListLifelogsParams where
  date : Option String := none
  timezone : Option String := none
  start_time : Option String := none
  end_time : Option String := none
  cursor : Option String := none
  sort_direction : Option SortDirection := none
  limit : Int := 10
deriving DecidableEq

/-- Parameters of `searchLifelogs` (`SearchLifelogsParamsSchema`). -/
structure SearchLifelogsParams where
  query : String
  date_from : Option String := none
  date_to : Option String := none
  timezone : Option String := none
  cursor : Option String := none
  limit : Int := 10
deriving DecidableEq

/-- The filter predicate applied by `searchLifelogs` (client.ts lines 95-111):
the query is lower-cased once, then an entry matches when that string occurs in
the lower-cased title, or in the lower-cased markdown when that optional field
is present (`entry.markdown?.toLowerCase().includes(query)` — the optional
chaining yields a falsy value when `markdown` is absent), or in the lower-cased
content text of at least one content item. -/
def matchesQuery (query : String) (entry : LifelogEntry) : Bool :=
  let q := jsToLower query
  jsIncludes (jsToLower entry.title) q ||
    (match entry.markdown with
      | some md => jsIncludes (jsToLower md) q
      | none => false) ||
    entry.contents.any (fun item => jsIncludes (jsToLower item.content) q)

/-- The list parameters `searchLifelogs` builds for its underlying `getLifelogs`
call (client.ts lines 88-92): the object literal carries only `date` (from
`date_from`), `limit` and `cursor`; every other field is absent. -/
def deriveListParams (params : SearchLifelogsParams) : ListLifelogsParams :=
  { date := params.date_from
    limit := params.limit
    cursor := params.cursor }

/-- `searchLifelogs` (client.ts lines 83-119), with the underlying network call
abstracted as a `fetch` function that either fails with an error of type `ε`
(whatever `handleRequest` would throw) or returns one page. The fetched page is
filtered by `matchesQuery` and returned with the original `meta` object. -/
def searchLifelogs {ε : Type} (fetch : ListLifelogsParams → Except ε ListLifelogsResponse)
    (params : SearchLifelogsParams) : Except ε ListLifelogsResponse :=
  match fetch (deriveListParams params) with
  | .error e => .error e
  | .ok allEntries =>
      .ok { data := { lifelogs := allEntries.data.lifelogs.filter (matchesQuery params.query) }
            meta := allEntries.meta }

/-- The three shapes of value the `catch` block of `handleRequest`
(client.ts lines 46-56) can receive: an axios error (with an optional response
status and an optional `data.message` in the error body), any other JS `Error`,
or a thrown non-`Error` value (kept as its `String(error)` rendering). -/
inductive ThrownError
  | axiosError (responseStatus : Option Nat) (dataMessage : Option String) (message : String)
  | jsError (message : String)
  | nonError (stringRendering : String)
deriving DecidableEq

/-- The message of the `Error` re-thrown by `handleRequest` (client.ts lines 46-56).
`error.response?.data?.message || error.message` and
`error.response?.status || "unknown"` use JS `||`, so an empty-string body
message and a zero status (both falsy) fall through to the fallback. -/
def handleRequestErrorMessage : ThrownError → String
  | .axiosError responseStatus dataMessage msg =>
      let message :=
        match dataMessage with
        | some m => if m = "" then msg else m
        | none => msg
      let status :=
        match responseStatus with
        | some s => if s = 0 then "unknown" else toString s
        | none => "unknown"
      "Limitless API error (" ++ status ++ "): " ++ message
  | .jsError msg => "Limitless API error: " ++ msg
  | .nonError s => "Limitless API error: " ++ s

/-- Configuration of the client (`LimitlessConfigSchema`): both fields optional. -/
structure LimitlessConfig where
  apiKey : Option String := none
  baseUrl : Option String := none
deriving DecidableEq

/-- What the constructor builds when it succeeds: the axios instance's read-only
configuration (client.ts lines 29-36). -/
structure ClientState where
  baseURL : String
  apiKeyHeader : String
  timeoutMs : Nat
deriving DecidableEq

inductive ConfigError
  | missingApiKey
deriving DecidableEq

/-- The `LimitlessClient` constructor (client.ts lines 17-37):
`config.apiKey || process.env.LIMITLESS_API_KEY` resolves the key, and the
constructor throws when the result is absent, empty, or whitespace-only
(`!apiKey || apiKey.trim() === ""`); otherwise the axios instance is created
with the configured or default base URL and a 30-second timeout. -/
def mkLimitlessClient (config : LimitlessConfig) (envApiKey : Option String) :
    Except ConfigError ClientState :=
  match jsOrOptString config.apiKey envApiKey with
  | none => .error .missingApiKey
  | some apiKey =>
      if apiKey = "" then .error .missingApiKey
      else if jsTrim apiKey = "" then .error .missingApiKey
      else .ok { baseURL := jsOrString config.baseUrl "https://api.limitless.ai"
                 apiKeyHeader := apiKey
                 timeoutMs := 30000 }

/-- Validation errors raised by the zod schemas of the tool layer before the
handler (and hence any network call) runs. -/
inductive ValidationError
  | limitTooSmall
  | limitTooLarge
  | emptyLifelogId
deriving DecidableEq

/-- The `limit` schema of the `getLifelogs` tool (client.ts lines 542-550):
`z.number().min(1).max(10).optional().default(10)` — absent means 10, out-of-range
values are rejected, in-range values pass through unchanged (no clamping). -/
def parseLimit (raw : Option Int) : Except ValidationError Int :=
  match raw with
  | none => .ok 10
  | some n =>
      if n < 1 then .error .limitTooSmall
      else if 10 < n then .error .limitTooLarge
      else .ok n

/-- Raw arguments of the `getLifelogs` tool before zod validation
(client.ts lines 505-551). -/
structure RawGetLifelogsArgs where
  date : Option String := none
  timezone : Option String := none
  start_time : Option String := none
  end_time : Option String := none
  cursor : Option String := none
  sort_direction : Option SortDirection := none
  limit : Option Int := none
deriving DecidableEq

/-- zod validation of the `getLifelogs` tool arguments: the string fields are
plain optional strings, `limit` goes through `parseLimit`. -/
def parseGetLifelogsArgs (raw : RawGetLifelogsArgs) : Except ValidationError ListLifelogsParams :=
  match parseLimit raw.limit with
  | .error e => .error e
  | .ok n =>
      .ok { date := raw.date
            timezone := raw.timezone
            start_time := raw.start_time
            end_time := raw.end_time
            cursor := raw.cursor
            sort_direction := raw.sort_direction
            limit := n }

/-- Errors surfaced by a tool call: a zod validation failure (raised before the
handler runs) or an error from the underlying API call. -/
inductive ToolError (ε : Type)
  | validation (e : ValidationError)
  | api (e : ε)
deriving DecidableEq

/-- The `getLifelogs` tool pipeline: the MCP layer validates the raw arguments
against the zod schema, and only a successfully parsed argument set reaches the
handler, which performs the network call (client.ts lines 558-559). -/
def getLifelogsTool {ε : Type} (fetch : ListLifelogsParams → Except ε ListLifelogsResponse)
    (raw : RawGetLifelogsArgs) : Except (ToolError ε) ListLifelogsResponse :=
  match parseGetLifelogsArgs raw with
  | .error e => .error (.validation e)
  | .ok params =>
      match fetch params with
      | .error e => .error (.api e)
      | .ok r => .ok r

/-- The `lifelog_id` schema of the `getLifelogEntry` tool (client.ts lines 623-628):
`z.string().min(1)` — the id must be a non-empty string. -/
def parseLifelogId (raw : String) : Except ValidationError String :=
  if raw.length < 1 then .error .emptyLifelogId else .ok raw

/-- The `getLifelogEntry` tool pipeline: zod validation of `lifelog_id`, then the
`getLifelog` network call (client.ts lines 636-637). -/
def getLifelogEntryTool {ε : Type} (fetchById : String → Except ε LifelogEntry)
    (rawId : String) : Except (ToolError ε) LifelogEntry :=
  match parseLifelogId rawId with
  | .error e => .error (.validation e)
  | .ok id =>
      match fetchById id with
      | .error e => .error (.api e)
      | .ok entry => .ok entry

/-- The lower-cased `query` occurs as a contiguous substring of the lower-cased
`text` (the property the spec describes as case-insensitive substring matching). -/
def LowerSubstringOf (query text : String) : Prop :=
  ∃ pre post : List Char, pre ++ (jsToLower query).data ++ post = (jsToLower text).data

/-- Sample fixtures used by the witness theorems. -/
def sampleItem : LifelogContentItem :=
  { content := "Discussed the budget", kind := .blockquote, speakerName := some "John" }

def sampleEntryMeeting : LifelogEntry :=
  { id := "e1"
    title := "Team meeting notes"
    startTime := "2025-11-05T10:00:00Z"
    endTime := "2025-11-05T11:00:00Z"
    contents := [sampleItem] }

def sampleEntryGrocery : LifelogEntry :=
  { id := "e2"
    title := "Grocery list"
    startTime := "2025-11-05T12:00:00Z"
    endTime := "2025-11-05T12:30:00Z"
    contents := [] }

def samplePage : ListLifelogsResponse :=
  { data := { lifelogs := [sampleEntryMeeting, sampleEntryGrocery] }
    meta := some { lifelogs := { count := 42 } } }

def sampleFetch : ListLifelogsParams → Except String ListLifelogsResponse :=
  fun _ => .ok samplePage

def sampleFetchFail : ListLifelogsParams → Except String ListLifelogsResponse :=
  fun _ => .error "network down"

def rawLimitZero : RawGetLifelogsArgs := { limit := some 0 }

def rawLimitFive : RawGetLifelogsArgs := { limit := some 5 }

/-! ## Helper lemmas -/

theorem jsIncludes_lower_iff (text query : String) :
    jsIncludes (jsToLower text) (jsToLower query) = true ↔ LowerSubstringOf query text := by
  unfold jsIncludes LowerSubstringOf
  exact decide_eq_true_iff

theorem matchesQuery_iff (query : String) (entry : LifelogEntry) :
    matchesQuery query entry = true ↔
      (LowerSubstringOf query entry.title ∨
        (∃ md, entry.markdown = some md ∧ LowerSubstringOf query md) ∨
        ∃ item ∈ entry.contents, LowerSubstringOf query item.content) := by
  unfold matchesQuery
  cases hmd : entry.markdown with
  | none => simp [hmd, List.any_eq_true, jsIncludes_lower_iff]
  | some md =>
      simp only [hmd, List.any_eq_true, Bool.or_eq_true, jsIncludes_lower_iff,
        Option.some.injEq, exists_eq_left']
      tauto

theorem searchLifelogs_ok {ε : Type}
    (fetch : ListLifelogsParams → Except ε ListLifelogsResponse)
    (params : SearchLifelogsParams) (page : ListLifelogsResponse)
    (hfetch : fetch (deriveListParams params) = .ok page) :
    searchLifelogs fetch params =
      .ok { data := { lifelogs := page.data.lifelogs.filter (matchesQuery params.query) }
            meta := page.meta } := by
  unfold searchLifelogs
  rw [hfetch]

/-! ## Claim theorems -/

/-- C1: for every page fetched by searchLifelogs and every non-empty query, an
entry of that page is in the returned page iff the lower-cased query is a
contiguous substring of the lower-cased title, or of the lower-cased markdown
rendering when that field is present, or of the lower-cased content text of some
content item — pure substring containment, nothing else. -/
theorem searchLifelogs_match_characterization {ε : Type}
    (fetch : ListLifelogsParams → Except ε ListLifelogsResponse)
    (params : SearchLifelogsParams) (page result : ListLifelogsResponse)
    (hq : params.query ≠ "")
    (hfetch : fetch (deriveListParams params) = .ok page)
    (hres : searchLifelogs fetch params = .ok result)
    (entry : LifelogEntry) (hmem : entry ∈ page.data.lifelogs) :
    entry ∈ result.data.lifelogs ↔
      (LowerSubstringOf params.query entry.title ∨
        (∃ md, entry.markdown = some md ∧ LowerSubstringOf params.query md) ∨
        ∃ item ∈ entry.contents, LowerSubstringOf params.query item.content) := by
  rw [searchLifelogs_ok fetch params page hfetch] at hres
  cases hres
  rw [← matchesQuery_iff]
  simp [List.mem_filter, hmem]

/-- C1 witness: concrete instance on a two-entry page with query "meeting". -/
theorem searchLifelogs_match_characterization_witness :
    sampleEntryMeeting ∈
        (ListLifelogsResponse.mk { lifelogs := [sampleEntryMeeting] }
          (some { lifelogs := { count := 42 } })).data.lifelogs ↔
      (LowerSubstringOf "meeting" sampleEntryMeeting.title ∨
        (∃ md, sampleEntryMeeting.markdown = some md ∧ LowerSubstringOf "meeting" md) ∨
        ∃ item ∈ sampleEntryMeeting.contents, LowerSubstringOf "meeting" item.content) :=
  searchLifelogs_match_characterization sampleFetch { query := "meeting" } samplePage
    (ListLifelogsResponse.mk { lifelogs := [sampleEntryMeeting] }
      (some { lifelogs := { count := 42 } }))
    (by decide) rfl rfl sampleEntryMeeting (by decide)

/-- C2: searchLifelogs derives its underlying list-fetch parameters solely from
date_from (forwarded as the single date filter), cursor and limit (forwarded
unchanged); date_to and timezone, though accepted as input, do not affect the
derived fetch parameters. -/
theorem searchLifelogs_fetch_params_only
    (params params' : SearchLifelogsParams)
    (hdf : params'.date_from = params.date_from)
    (hc : params'.cursor = params.cursor)
    (hl : params'.limit = params.limit) :
    deriveListParams params =
      { date := params.date_from, cursor := params.cursor, limit := params.limit } ∧
    deriveListParams params' = deriveListParams params := by
  refine ⟨rfl, ?_⟩
  unfold deriveListParams
  rw [hdf, hc, hl]

/-- C2 witness: two parameter sets agreeing on date_from/cursor/limit but with
different query, date_to and timezone derive the same fetch parameters. -/
theorem searchLifelogs_fetch_params_only_witness :
    deriveListParams
        { query := "alpha", date_from := some "2025-11-01", date_to := some "2025-11-05",
          timezone := some "UTC", cursor := some "cur", limit := 5 } =
      { date := some "2025-11-01", cursor := some "cur", limit := 5 } ∧
    deriveListParams
        { query := "beta", date_from := some "2025-11-01", date_to := none,
          timezone := some "Asia/Tokyo", cursor := some "cur", limit := 5 } =
      deriveListParams
        { query := "alpha", date_from := some "2025-11-01", date_to := some "2025-11-05",
          timezone := some "UTC", cursor := some "cur", limit := 5 } :=
  searchLifelogs_fetch_params_only
    { query := "alpha", date_from := some "2025-11-01", date_to := some "2025-11-05",
      timezone := some "UTC", cursor := some "cur", limit := 5 }
    { query := "beta", date_from := some "2025-11-01", date_to := none,
      timezone := some "Asia/Tokyo", cursor := some "cur", limit := 5 }
    rfl rfl rfl

/-- C3: the page returned by searchLifelogs keeps the matching entries in their
original relative order (a sublist of the fetched page) and passes the fetched
page's metadata (the total-available count) through unchanged. -/
theorem searchLifelogs_order_and_meta {ε : Type}
    (fetch : ListLifelogsParams → Except ε ListLifelogsResponse)
    (params : SearchLifelogsParams) (page result : ListLifelogsResponse)
    (hfetch : fetch (deriveListParams params) = .ok page)
    (hres : searchLifelogs fetch params = .ok result) :
    result.data.lifelogs.Sublist page.data.lifelogs ∧ result.meta = page.meta := by
  rw [searchLifelogs_ok fetch params page hfetch] at hres
  cases hres
  exact ⟨List.filter_sublist _, rfl⟩

/-- C3 witness: concrete instance — the filtered page is a sublist of the
fetched page and the metadata (count 42) survives even though only one of the
two entries matches. -/
theorem searchLifelogs_order_and_meta_witness :
    List.Sublist [sampleEntryMeeting] [sampleEntryMeeting, sampleEntryGrocery] ∧
      (some { lifelogs := { count := 42 } } : Option ListLifelogsMeta) =
        some { lifelogs := { count := 42 } } :=
  searchLifelogs_order_and_meta sampleFetch { query := "meeting" } samplePage
    (ListLifelogsResponse.mk { lifelogs := [sampleEntryMeeting] }
      (some { lifelogs := { count := 42 } }))
    rfl rfl

/-- C4: a getLifelogs tool call whose limit is outside 1–10 is rejected with a
validation error before the handler runs, so no network call occurs (the outcome
does not depend on the fetch function at all); an in-range limit is forwarded to
the fetch call exactly as given, never clamped. -/
theorem getLifelogs_limit_validation {ε : Type}
    (fetch fetch' : ListLifelogsParams → Except ε ListLifelogsResponse)
    (raw : RawGetLifelogsArgs) (n : Int) (hn : raw.limit = some n) :
    ((n < 1 ∨ 10 < n) →
      (∃ e, getLifelogsTool fetch raw = .error (.validation e)) ∧
      getLifelogsTool fetch raw = getLifelogsTool fetch' raw) ∧
    (1 ≤ n → n ≤ 10 →
      getLifelogsTool fetch raw =
        (fetch
          { date := raw.date, timezone := raw.timezone, start_time := raw.start_time,
            end_time := raw.end_time, cursor := raw.cursor,
            sort_direction := raw.sort_direction, limit := n }).mapError ToolError.api) := by
  constructor
  · intro hout
    have hparse : parseGetLifelogsArgs raw =
        .error (if n < 1 then .limitTooSmall else .limitTooLarge) := by
      unfold parseGetLifelogsArgs parseLimit
      rw [hn]
      rcases hout with h | h
      · simp [h]
      · have h1 : ¬n < 1 := by omega
        simp [h1, h]
    constructor
    · exact ⟨_, by unfold getLifelogsTool; rw [hparse]⟩
    · unfold getLifelogsTool
      rw [hparse]
  · intro h1 h10
    have hparse : parseGetLifelogsArgs raw =
        .ok { date := raw.date, timezone := raw.timezone, start_time := raw.start_time,
              end_time := raw.end_time, cursor := raw.cursor,
              sort_direction := raw.sort_direction, limit := n } := by
      unfold parseGetLifelogsArgs parseLimit
      rw [hn]
      have hlt : ¬n < 1 := by omega
      have hgt : ¬10 < n := by omega
      simp [hlt, hgt]
    unfold getLifelogsTool
    rw [hparse]
    cases hf : fetch
        { date := raw.date, timezone := raw.timezone, start_time := raw.start_time,
          end_time := raw.end_time, cursor := raw.cursor,
          sort_direction := raw.sort_direction, limit := n } <;>
      simp [hf, Except.mapError]

/-- C4 witness: limit 0 is rejected independently of the fetch function, and
limit 5 reaches the fetch call as exactly 5. -/
theorem getLifelogs_limit_validation_witness :
    (getLifelogsTool sampleFetch rawLimitZero = getLifelogsTool sampleFetchFail rawLimitZero) ∧
    getLifelogsTool sampleFetch rawLimitFive =
      (sampleFetch { limit := 5 }).mapError ToolError.api :=
  ⟨((getLifelogs_limit_validation sampleFetch sampleFetchFail rawLimitZero 0 rfl).1
      (Or.inl (by decide))).2,
    (getLifelogs_limit_validation sampleFetch sampleFetchFail rawLimitFive 5 rfl).2
      (by decide) (by decide)⟩

/-- C5: for a fixed fetched page, two search calls whose query strings have the
same lower-casing (differ only in letter case) return identical results. -/
theorem searchLifelogs_case_insensitive {ε : Type}
    (fetch : ListLifelogsParams → Except ε ListLifelogsResponse)
    (params : SearchLifelogsParams) (q1 q2 : String)
    (hq : jsToLower q1 = jsToLower q2) :
    searchLifelogs fetch { params with query := q1 } =
      searchLifelogs fetch { params with query := q2 } := by
  have hm : matchesQuery q1 = matchesQuery q2 := by
    funext e
    unfold matchesQuery
    rw [hq]
  unfold searchLifelogs
  have hd : deriveListParams { params with query := q1 } =
      deriveListParams { params with query := q2 } := rfl
  rw [hd, hm]

/-- C5 witness: "MEETING" and "meeting" give the same search result on the
sample page. -/
theorem searchLifelogs_case_insensitive_witness :
    searchLifelogs sampleFetch { ({ query := "x" } : SearchLifelogsParams) with
        query := "MEETING" } =
      searchLifelogs sampleFetch { ({ query := "x" } : SearchLifelogsParams) with
        query := "meeting" } :=
  searchLifelogs_case_insensitive sampleFetch { query := "x" } "MEETING" "meeting" (by decide)

/-- C6: searchLifelogs fails exactly when the underlying list fetch fails (with
the same error — it introduces no error of its own), and a fetched page in which
no entry matches yields an empty page, not an error. -/
theorem searchLifelogs_error_and_empty {ε : Type}
    (fetch : ListLifelogsParams → Except ε ListLifelogsResponse)
    (params : SearchLifelogsParams) :
    (∀ e : ε, searchLifelogs fetch params = .error e ↔
      fetch (deriveListParams params) = .error e) ∧
    (∀ page, fetch (deriveListParams params) = .ok page →
      (∀ entry ∈ page.data.lifelogs, matchesQuery params.query entry = false) →
      searchLifelogs fetch params = .ok { data := { lifelogs := [] }, meta := page.meta }) := by
  constructor
  · intro e
    unfold searchLifelogs
    cases hf : fetch (deriveListParams params) <;> simp
  · intro page hfetch hnone
    rw [searchLifelogs_ok fetch params page hfetch]
    have : page.data.lifelogs.filter (matchesQuery params.query) = [] := by
      rw [List.filter_eq_nil_iff]
      intro a ha
      simp [hnone a ha]
    rw [this]

/-- C6 witness: the query "zzz" matches nothing on the sample page and returns
the empty page with the original metadata, not an error. -/
theorem searchLifelogs_error_and_empty_witness :
    searchLifelogs sampleFetch { query := "zzz" } =
      .ok { data := { lifelogs := [] }, meta := some { lifelogs := { count := 42 } } } :=
  (searchLifelogs_error_and_empty sampleFetch { query := "zzz" }).2 samplePage rfl (by decide)

/-- C7: calling the getLifelogEntry tool with an empty id string fails with the
empty-id validation error, and the outcome does not depend on the fetch
function, so no network call is issued. -/
theorem getLifelogEntry_empty_id {ε : Type}
    (fetchById fetchById' : String → Except ε LifelogEntry) :
    getLifelogEntryTool fetchById "" = .error (.validation .emptyLifelogId) ∧
    getLifelogEntryTool fetchById "" = getLifelogEntryTool fetchById' "" := by
  exact ⟨rfl, rfl⟩

/-- C8 counterexample: with an error body whose message field is present but
empty (and, separately, a response status of 0), the raised message falls back
to the transport message and to "unknown" — JS `||` treats the present falsy
values as absent, contradicting the claim's "when present". -/
theorem handleRequest_error_counterexample :
    handleRequestErrorMessage (.axiosError (some 500) (some "") "Network Error") =
      "Limitless API error (500): Network Error" ∧
    handleRequestErrorMessage (.axiosError (some 500) (some "") "Network Error") ≠
      "Limitless API error (500): " ∧
    handleRequestErrorMessage (.axiosError (some 0) (some "oops") "transport") =
      "Limitless API error (unknown): oops" := by
  refine ⟨?_, ?_, ?_⟩ <;> decide

/-- C8 amended: for an HTTP-level failure the raised error carries the upstream
status code when it is present and nonzero (else "unknown"), and a message taken
from the error body's message field when that field is present and non-empty,
else the transport's own message; any other thrown local fault is wrapped in a
generic error carrying that fault's message (or its string rendering for a
thrown non-Error value). -/
theorem handleRequest_error_format (s : Nat) (m tmsg other : String)
    (hs : s ≠ 0) (hm : m ≠ "") :
    handleRequestErrorMessage (.axiosError (some s) (some m) tmsg) =
      "Limitless API error (" ++ toString s ++ "): " ++ m ∧
    handleRequestErrorMessage (.axiosError (some s) none tmsg) =
      "Limitless API error (" ++ toString s ++ "): " ++ tmsg ∧
    handleRequestErrorMessage (.axiosError (some s) (some "") tmsg) =
      "Limitless API error (" ++ toString s ++ "): " ++ tmsg ∧
    handleRequestErrorMessage (.axiosError none (some m) tmsg) =
      "Limitless API error (unknown): " ++ m ∧
    handleRequestErrorMessage (.axiosError none none tmsg) =
      "Limitless API error (unknown): " ++ tmsg ∧
    handleRequestErrorMessage (.jsError other) = "Limitless API error: " ++ other ∧
    handleRequestErrorMessage (.nonError other) = "Limitless API error: " ++ other := by
  unfold handleRequestErrorMessage
  simp [hs, hm]

/-- C8 witness: concrete instance at status 404 with body message "Not found". -/
theorem handleRequest_error_format_witness :
    handleRequestErrorMessage (.axiosError (some 404) (some "Not found") "Request failed") =
      "Limitless API error (" ++ toString (404 : Nat) ++ "): " ++ "Not found" ∧
    handleRequestErrorMessage (.axiosError (some 404) none "Request failed") =
      "Limitless API error (" ++ toString (404 : Nat) ++ "): " ++ "Request failed" ∧
    handleRequestErrorMessage (.axiosError (some 404) (some "") "Request failed") =
      "Limitless API error (" ++ toString (404 : Nat) ++ "): " ++ "Request failed" ∧
    handleRequestErrorMessage (.axiosError none (some "Not found") "Request failed") =
      "Limitless API error (unknown): " ++ "Not found" ∧
    handleRequestErrorMessage (.axiosError none none "Request failed") =
      "Limitless API error (unknown): " ++ "Request failed" ∧
    handleRequestErrorMessage (.jsError "boom") = "Limitless API error: " ++ "boom" ∧
    handleRequestErrorMessage (.nonError "boom") = "Limitless API error: " ++ "boom" :=
  handleRequest_error_format 404 "Not found" "Request failed" "boom" (by decide) (by decide)

/-- C9: constructing the client with a missing or empty API credential and no
environment-variable fallback fails with the configuration error, so no client
state (fetch layer) is ever produced. -/
theorem mkClient_missing_key (config : LimitlessConfig)
    (h : config.apiKey = none ∨ config.apiKey = some "") :
    mkLimitlessClient config none = .error .missingApiKey := by
  rcases h with h | h <;> simp [mkLimitlessClient, jsOrOptString, h]

/-- C9 witness: the empty configuration with no environment variable fails. -/
theorem mkClient_missing_key_witness :
    mkLimitlessClient { apiKey := none, baseUrl := none } none = .error .missingApiKey :=
  mkClient_missing_key { apiKey := none, baseUrl := none } (Or.inl rfl)

/-- C10: for an entry whose optional markdown field is absent, the match
predicate is still total (it is a Lean function into Bool) and is decided from
the title and the content items alone — the absent field never makes the entry a
match by itself. -/
theorem matchesQuery_markdown_absent (query : String) (entry : LifelogEntry)
    (h : entry.markdown = none) :
    matchesQuery query entry = true ↔
      (LowerSubstringOf query entry.title ∨
        ∃ item ∈ entry.contents, LowerSubstringOf query item.content) := by
  rw [matchesQuery_iff]
  simp [h]

/-- C10 witness: concrete instance on the markdown-less sample entry with query
"budget". -/
theorem matchesQuery_markdown_absent_witness :
    matchesQuery "budget" sampleEntryMeeting = true ↔
      (LowerSubstringOf "budget" sampleEntryMeeting.title ∨
        ∃ item ∈ sampleEntryMeeting.contents, LowerSubstringOf "budget" item.content) :=
  matchesQuery_markdown_absent "budget" sampleEntryMeeting rfl

end Limitless
